import Mathlib

/-!
Shallow embedding of `runner/bin/run.js` from the content-writer-mcp
repository: a launcher that parses a `--config` JSON flag, resolves a
Python interpreter path from the environment and filesystem, builds the
child environment, spawns the child, forwards signals and propagates the
exit status.  Machine-level JS builtins (`JSON.parse`, `Number`) are
modelled as explicit parameters or as executable Lean functions covering
the value forms the program feeds them.
-/

namespace Runner

/-- JavaScript scalar value as it can appear in a parsed `--config` JSON
object (strings, numbers, booleans, null).  JSON has no NaN or undefined,
so numbers are modelled as integers here; the result of the JS `Number`
coercion, which can be NaN, is the separate type `JSNum`. -/
inductive JSVal where
  | vstr (s : String)
  | vnum (n : Int)
  | vbool (b : Bool)
  | vnull
deriving DecidableEq, Repr

/-- Result of the JS `Number(...)` coercion: an integer or NaN.
Non-integral doubles never arise from the inputs the launcher feeds
`Number`, so they are not modelled. -/
inductive JSNum where
  | int (n : Int)
  | nan
deriving DecidableEq, Repr

/-- JS truthiness of a `JSVal`: empty string, 0, false and null are falsy. -/
def truthy : JSVal → Bool
  | .vstr s => s ≠ ""
  | .vnum n => n ≠ 0
  | .vbool b => b
  | .vnull => false

/-- JS `String(...)` conversion of a `JSVal`. -/
def jsToString : JSVal → String
  | .vstr s => s
  | .vnum n => toString n
  | .vbool true => "true"
  | .vbool false => "false"
  | .vnull => "null"

/-- JS `String(...)` conversion of a `JSNum`; NaN prints as "NaN". -/
def numToString : JSNum → String
  | .int n => toString n
  | .nan => "NaN"

/-- Value of a non-empty all-decimal-digit character list; `none` when
the list is empty or holds a non-digit. -/
def digitsToNatAux : List Char → Nat → Option Nat
  | [], acc => some acc
  | c :: cs, acc =>
    if '0' ≤ c ∧ c ≤ '9' then digitsToNatAux cs (acc * 10 + (c.toNat - '0'.toNat))
    else none

def digitsToNat? (cs : List Char) : Option Nat :=
  match cs with
  | [] => none
  | cs => digitsToNatAux cs 0

/-- JS `Number(...)` on a string: "" coerces to 0, decimal integer
literals (with optional leading minus) to their value, anything else to
NaN.  (JS whitespace trimming and float/hex syntax are not exercised by
the launcher's claims and are not modelled.) -/
def strToNumber (s : String) : JSNum :=
  match s.data with
  | [] => .int 0
  | '-' :: rest =>
    match digitsToNat? rest with
    | some n => .int (-(n : Int))
    | none => .nan
  | cs =>
    match digitsToNat? cs with
    | some n => .int n
    | none => .nan

/-- JS `Number(...)` on a `JSVal`: numbers pass through, booleans become
0/1, null becomes 0, strings go through `strToNumber`. -/
def toNumber : JSVal → JSNum
  | .vnum n => .int n
  | .vbool true => .int 1
  | .vbool false => .int 0
  | .vnull => .int 0
  | .vstr s => strToNumber s

/-- The launcher's `LaunchConfig`: the five optional fields of the parsed
`--config` JSON object that `run.js` consults (`host`, `port`, `debug`,
`perplexityApiKey`, `perplexityModel`).  An absent field is `none`
(JS `undefined`). -/
structure Cfg where
  host : Option JSVal
  port : Option JSVal
  debug : Option JSVal
  perplexityApiKey : Option JSVal
  perplexityModel : Option JSVal
deriving DecidableEq, Repr

/-- The empty config returned when `--config` is absent or has no value. -/
def emptyCfg : Cfg := ⟨none, none, none, none, none⟩

/-- The ambient environment variables `run.js` reads.  `none` is an unset
variable (JS `undefined`). -/
structure Env where
  PYTHON_BIN : Option String
  VIRTUAL_ENV : Option String
  SERVICE_REGISTRY_HOST : Option String
  SERVICE_REGISTRY_PORT : Option String
  SERVICE_REGISTRY_DEBUG : Option String
deriving DecidableEq, Repr

/-- JS truthiness of an environment variable: returns the value exactly
when it is set and non-empty (this is what `process.env.X || fallback`
and `process.env.X ? ... : ...` test). -/
def envTruthy : Option String → Option String
  | some s => if s = "" then none else some s
  | none => none

/-- Filesystem stat result for one path: whether the path exists, whether
it is a regular file, and whether it carries execute permission.  The
execute bit is recorded so that spec-level claims about executability can
be stated; `run.js` itself never reads it. -/
structure FileStat where
  fexists : Bool
  isFile : Bool
  executable : Bool
deriving DecidableEq, Repr

/-- A filesystem state: stat data for every path. -/
def FS : Type := String → FileStat

/-- Embedding of `isExec(p)` from `run.js`: `p && fs.existsSync(p) &&
fs.statSync(p).isFile()`.  Note it checks existence and regular-file-ness
only; despite its name it never consults the execute permission. -/
def isExecS (fs : FS) (p : String) : Bool :=
  p ≠ "" && (fs p).fexists && (fs p).isFile

/-- `isExec` applied to a possibly-undefined value (the JS `p &&`
short-circuit makes `undefined` falsy). -/
def isExecOpt (fs : FS) (p : Option String) : Bool :=
  match p with
  | some s => isExecS fs s
  | none => false

/-- The spec's notion of a valid candidate: exists and is an executable
regular file.  Used only to state claims; the source's check is `isExecS`. -/
def isExecSpec (fs : FS) (p : String) : Bool :=
  (fs p).fexists && (fs p).isFile && (fs p).executable

/-- The three well-known fixed interpreter locations from `run.js`. -/
def fixedCands : List String :=
  ["/opt/homebrew/bin/python3", "/usr/local/bin/python3", "/usr/bin/python3"]

/-- The candidate list `tries` built in the live resolution block of
`run.js` (lines 93-104): the two virtualenv paths when `VIRTUAL_ENV` is
truthy (the `filter(Boolean)` drops them otherwise), then the three fixed
paths. -/
def tries (env : Env) : List String :=
  match envTruthy env.VIRTUAL_ENV with
  | some v => [v ++ "/bin/python", v ++ "/bin/python3"] ++ fixedCands
  | none => fixedCands

/-- The resolution `run.js` actually uses (lines 91-104):
`let PY_BIN = process.env.PYTHON_BIN || null;` — the override, when set
and non-empty, is taken as-is with no `isExec` check — and only otherwise
`PY_BIN = tries.find(isExec) || null`. -/
def pyBinUsed (env : Env) (fs : FS) : Option String :=
  match envTruthy env.PYTHON_BIN with
  | some o => some o
  | none => (tries env).find? (fun c => isExecS fs c)

/-- Embedding of the `resolvePython()` function of `run.js` (lines
27-65).  It is defined in the source but never called.  Its step 4
(`PATH` lookup via the shell) defines a `which` helper whose result is
structurally discarded: the function returns `null` unconditionally after
the fixed candidates fail, so the `shellLookup` oracle passed here is
never consulted. -/
def resolvePython (env : Env) (fs : FS)
    (_shellLookup : String → Option String) : Option String :=
  if isExecOpt fs env.PYTHON_BIN then env.PYTHON_BIN
  else
    match envTruthy env.VIRTUAL_ENV with
    | some v =>
      if isExecS fs (v ++ "/bin/python") then some (v ++ "/bin/python")
      else if isExecS fs (v ++ "/bin/python3") then some (v ++ "/bin/python3")
      else fixedCands.find? (fun c => isExecS fs c)
    | none => fixedCands.find? (fun c => isExecS fs c)

/-- Embedding of `parseConfigArg(argv)` from `run.js`.  `JSON.parse` is
the platform builtin, passed in as the partial function `parse`
(returning `none` on a parse error).  The source's `argv[i+1]` is JS
`undefined` when `--config` is last; both `undefined` and `""` are falsy,
collapsed here into `getD (i+1) ""`.  On a parse failure the source logs
an error (whose dynamic `e.message` detail is not modelled) and exits
with status 1. -/
def invalidJsonMsg : List String :=
  ["[mcp-service-registry] Invalid --config JSON:"]

def parseConfigArg (argv : List String) (parse : String → Option Cfg) :
    Except (List String) Cfg :=
  let i := argv.indexOf "--config"
  if i < argv.length then
    let v := argv.getD (i + 1) ""
    if v ≠ "" then
      match parse v with
      | some c => .ok c
      | none => .error invalidJsonMsg
    else .ok emptyCfg
  else .ok emptyCfg

/-- JS `a || b` over an optional config field: the field's value when
present and truthy, else the fallback. -/
def orJS (o : Option JSVal) (alt : JSVal) : JSVal :=
  match o with
  | some v => if truthy v then v else alt
  | none => alt

/-- JS `a ?? b` (nullish coalescing) over an optional config field:
absent and null both fall through. -/
def nullishJS (o : Option JSVal) : Option JSVal :=
  match o with
  | some .vnull => none
  | x => x

/-- `const host = cfg.host || process.env.SERVICE_REGISTRY_HOST ||
"127.0.0.1"` from `run.js` line 70 (an unset env var is `undefined`,
hence falsy; a set-but-empty one is falsy too). -/
def hostVal (cfg : Cfg) (env : Env) : JSVal :=
  orJS cfg.host (orJS (env.SERVICE_REGISTRY_HOST.map .vstr) (.vstr "127.0.0.1"))

/-- `const port = Number(cfg.port || process.env.SERVICE_REGISTRY_PORT ||
7001)` from `run.js` line 71. -/
def portVal (cfg : Cfg) (env : Env) : JSNum :=
  toNumber (orJS cfg.port (orJS (env.SERVICE_REGISTRY_PORT.map .vstr) (.vnum 7001)))

/-- ASCII lowercasing, mirroring JS `toLowerCase` on the ASCII strings
the launcher compares (Unicode case mapping is not exercised here). -/
def lowerStr (s : String) : String := ⟨s.data.map Char.toLower⟩

/-- `const debug = Boolean(cfg.debug ?? (process.env.SERVICE_REGISTRY_DEBUG
|| "").toLowerCase() === "true")` from `run.js` line 72. -/
def debugVal (cfg : Cfg) (env : Env) : Bool :=
  match nullishJS cfg.debug with
  | some v => truthy v
  | none => lowerStr (env.SERVICE_REGISTRY_DEBUG.getD "") == "true"

/-- The three service-registry variables the launcher sets in the child's
environment (`run.js` lines 82-88), each serialized with JS `String(...)`.
The environment also carries the inherited variables, `PYTHONPATH` and the
two optional Perplexity passthrough fields; the claims only concern these
three, so only they are recorded. -/
structure ChildEnv where
  SERVICE_REGISTRY_HOST : String
  SERVICE_REGISTRY_PORT : String
  SERVICE_REGISTRY_DEBUG : String
deriving DecidableEq, Repr

def buildChildEnv (cfg : Cfg) (env : Env) : ChildEnv :=
  ⟨jsToString (hostVal cfg env),
   numToString (portVal cfg env),
   if debugVal cfg env then "true" else "false"⟩

/-- Remediation text printed by the final guard of `run.js` (lines
107-113) before `process.exit(127)`. -/
def pythonNotFoundMsg : List String :=
  ["ERROR: Python interpreter not found.",
   "Quick fixes:",
   "  1) Install Homebrew Python:   brew install python",
   "  2) Or set an explicit path:   export PYTHON_BIN=/opt/homebrew/bin/python3"]

/-- The fixed argument vector passed to the spawned interpreter. -/
def childArgs : List String := ["-m", "registry.service_registry_server"]

/-- Outcome of the launcher's pre-spawn pipeline: either a fatal exit
(with exit code and diagnostic lines, no child ever spawned) or a spawn
of the child with the selected interpreter, child environment and
argument vector. -/
inductive LaunchOutcome where
  | fatal (exitCode : Int) (diag : List String)
  | spawned (pyBin : String) (cenv : ChildEnv) (args : List String)
deriving DecidableEq, Repr

/-- The launcher's top-level pre-spawn control flow in source order:
parse `--config` (exit 1 on bad JSON), compute host/port/debug (never
fails — a NaN port flows through), resolve the interpreter, exit 127
behind the final guard when resolution yields null, otherwise spawn. -/
def launch (argv : List String) (parse : String → Option Cfg)
    (env : Env) (fs : FS) : LaunchOutcome :=
  match parseConfigArg argv parse with
  | .error d => .fatal 1 d
  | .ok cfg =>
    match pyBinUsed env fs with
    | none => .fatal 127 pythonNotFoundMsg
    | some py => .spawned py (buildChildEnv cfg env) childArgs

/-- Termination signals the launcher registers handlers for. -/
inductive Sig where
  | SIGINT
  | SIGTERM
deriving DecidableEq, Repr

/-- An event observed while the child is running: the child exits (with a
status code, or `none` when it was killed by a signal), or the launcher
receives a termination signal. -/
inductive ChildEvent where
  | exited (code : Option Int)
  | signal (s : Sig)
deriving DecidableEq, Repr

/-- What the launcher does in reaction to one event: which signal it
forwards to the child, whether it exits (and with what code), and which
diagnostic lines it emits. -/
structure SupervisorAction where
  forwardToChild : Option Sig
  exitWith : Option Int
  diagnostics : List String
deriving DecidableEq, Repr

/-- The supervision logic of `run.js` (lines 124-125):
`process.on(sig, () => child.kill(sig))` for SIGINT/SIGTERM, and
`child.on("exit", code => process.exit(code ?? 0))`. -/
def handleEvent : ChildEvent → SupervisorAction
  | .signal s => ⟨some s, none, []⟩
  | .exited c => ⟨none, some (c.getD 0), []⟩

/-! ### Helper lemmas about `List.find?` -/

theorem find?_mem_of_eq_some {α : Type} {p : α → Bool} {l : List α} {a : α}
    (h : l.find? p = some a) : a ∈ l := by
  induction l with
  | nil => simp [List.find?] at h
  | cons x xs ih =>
    rw [List.find?] at h
    by_cases hx : p x
    · simp [hx] at h
      simp [h]
    · simp [hx] at h
      exact List.mem_cons_of_mem x (ih h)

theorem find?_sat_of_eq_some {α : Type} {p : α → Bool} {l : List α} {a : α}
    (h : l.find? p = some a) : p a = true := by
  induction l with
  | nil => simp [List.find?] at h
  | cons x xs ih =>
    rw [List.find?] at h
    by_cases hx : p x
    · simp [hx] at h
      rw [← h]; exact hx
    · simp [hx] at h
      exact ih h

theorem find?_split_of_eq_some {α : Type} {p : α → Bool} {l : List α} {a : α}
    (h : l.find? p = some a) :
    ∃ pre post, l = pre ++ a :: post ∧ ∀ b ∈ pre, p b = false := by
  induction l with
  | nil => simp [List.find?] at h
  | cons x xs ih =>
    rw [List.find?] at h
    by_cases hx : p x
    · simp [hx] at h
      exact ⟨[], xs, by simp [h], by simp⟩
    · simp [hx] at h
      obtain ⟨pre, post, hsplit, hpre⟩ := ih h
      refine ⟨x :: pre, post, by simp [hsplit], ?_⟩
      intro b hb
      rcases List.mem_cons.mp hb with hb | hb
      · subst hb; exact Bool.of_not_eq_true hx
      · exact hpre b hb

/-! ### Claim C1 -/

/-- Concrete filesystem for C1: only `/usr/bin/python3` exists, as an
executable regular file. -/
def fsC1 : FS := fun p =>
  if p = "/usr/bin/python3" then ⟨true, true, true⟩ else ⟨false, false, false⟩

/-- Concrete environment for C1: the override names a path that does not
exist; no virtualenv. -/
def envC1 : Env := ⟨some "/bad/python", none, none, none, none⟩

/-- C1 counterexample: with the override set to a non-existent path while
the well-known candidate `/usr/bin/python3` is a valid executable regular
file, the resolution actually used returns the override anyway.  The
claimed search would have to skip the override (it is not an executable
regular file) and fall through to `/usr/bin/python3`; the code does not. -/
theorem claim_C1_counterexample :
    pyBinUsed envC1 fsC1 = some "/bad/python"
    ∧ isExecSpec fsC1 "/bad/python" = false
    ∧ isExecSpec fsC1 "/usr/bin/python3" = true
    ∧ "/usr/bin/python3" ∈ tries envC1 := by
  refine ⟨rfl, rfl, rfl, ?_⟩
  simp [tries, envC1, envTruthy, fixedCands]

/-- C1 as amended: the override variable, when set and non-empty, is
selected unconditionally with no check of any kind; only when it is unset
or empty does the launcher run an ordered, short-circuiting search over
the virtualenv primary, virtualenv secondary and the three well-known
fixed paths, returning the first candidate that exists and is a regular
file (the execute permission is never checked); when all of those fail the
search yields nothing. -/
theorem claim_C1_amended :
    (∀ (env : Env) (fs : FS) (o : String),
      envTruthy env.PYTHON_BIN = some o → pyBinUsed env fs = some o)
    ∧ (∀ (env : Env) (fs : FS) (p : String),
      envTruthy env.PYTHON_BIN = none → pyBinUsed env fs = some p →
      isExecS fs p = true
      ∧ ∃ pre post, tries env = pre ++ p :: post ∧ ∀ q ∈ pre, isExecS fs q = false)
    ∧ (∀ (env : Env) (fs : FS),
      envTruthy env.PYTHON_BIN = none →
      (∀ c ∈ tries env, isExecS fs c = false) → pyBinUsed env fs = none) := by
  refine ⟨?_, ?_, ?_⟩
  · intro env fs o h
    simp [pyBinUsed, h]
  · intro env fs p h hfind
    simp only [pyBinUsed, h] at hfind
    exact ⟨find?_sat_of_eq_some hfind, find?_split_of_eq_some hfind⟩
  · intro env fs h hall
    simp only [pyBinUsed, h]
    exact List.find?_eq_none.mpr fun x hx => by simp [hall x hx]

/-- Witness for C1's amended theorem at concrete inputs. -/
theorem claim_C1_witness :
    pyBinUsed ⟨some "/x/py", none, none, none, none⟩ fsC1 = some "/x/py" :=
  claim_C1_amended.1 ⟨some "/x/py", none, none, none, none⟩ fsC1 "/x/py" rfl

/-! ### Claim C2 -/

/-- Concrete filesystem for C2: `/opt/homebrew/bin/python3` exists and is
a regular file but carries no execute permission; nothing else exists. -/
def fsC2 : FS := fun p =>
  if p = "/opt/homebrew/bin/python3" then ⟨true, true, false⟩
  else ⟨false, false, false⟩

/-- C2 counterexample: with no override and no virtualenv, the launcher
selects `/opt/homebrew/bin/python3` even though it is not executable —
the selection check never verifies the execute permission, so a path can
be selected without the claimed "executable regular file" verification. -/
theorem claim_C2_counterexample :
    pyBinUsed ⟨none, none, none, none, none⟩ fsC2
      = some "/opt/homebrew/bin/python3"
    ∧ (fsC2 "/opt/homebrew/bin/python3").executable = false := by
  exact ⟨rfl, rfl⟩

/-- C2 as amended: every path selected by the fallback search (override
unset or empty) was verified at selection time to exist and to be a
regular file — but not to be executable; and the override path, when set
and non-empty, is selected with no verification at all. -/
theorem claim_C2_amended :
    (∀ (env : Env) (fs : FS) (p : String),
      envTruthy env.PYTHON_BIN = none → pyBinUsed env fs = some p →
      (fs p).fexists = true ∧ (fs p).isFile = true)
    ∧ (∀ (env : Env) (fs : FS) (o : String),
      envTruthy env.PYTHON_BIN = some o → pyBinUsed env fs = some o) := by
  constructor
  · intro env fs p h hfind
    simp only [pyBinUsed, h] at hfind
    have hsat := find?_sat_of_eq_some hfind
    simp only [isExecS, Bool.and_eq_true, decide_eq_true_eq] at hsat
    exact ⟨hsat.1.2, hsat.2⟩
  · intro env fs o h
    simp [pyBinUsed, h]

/-- Witness for C2's amended theorem at concrete inputs. -/
theorem claim_C2_witness :
    (fsC2 "/opt/homebrew/bin/python3").fexists = true
    ∧ (fsC2 "/opt/homebrew/bin/python3").isFile = true :=
  claim_C2_amended.1 ⟨none, none, none, none, none⟩ fsC2
    "/opt/homebrew/bin/python3" rfl rfl

/-! ### Claim C3 -/

/-- JS falsiness of an optional config field: absent, or present with a
falsy value. -/
def cfgFalsy (o : Option JSVal) : Bool :=
  match o with
  | some v => !truthy v
  | none => true

theorem orJS_of_falsy {o : Option JSVal} {alt : JSVal}
    (h : cfgFalsy o = true) : orJS o alt = alt := by
  cases o with
  | none => rfl
  | some v =>
    simp only [cfgFalsy, Bool.not_eq_true'] at h
    simp [orJS, h]

theorem orJS_of_truthy {v alt : JSVal}
    (h : truthy v = true) : orJS (some v) alt = v := by
  simp [orJS, h]

theorem nullishJS_of_ne_null {v : JSVal}
    (h : v ≠ .vnull) : nullishJS (some v) = some v := by
  cases v <;> simp [nullishJS] at h ⊢

/-- C3 counterexample: the config field `host` present with the value `""`
is present, yet the child environment's host is the default `"127.0.0.1"`,
not `""` — JS `||` lets a present-but-falsy config value fall through, so
the claimed "config value wins whenever the field is present" fails. -/
theorem claim_C3_counterexample :
    (buildChildEnv ⟨some (.vstr ""), none, none, none, none⟩
        ⟨none, none, none, none, none⟩).SERVICE_REGISTRY_HOST = "127.0.0.1"
    ∧ jsToString (.vstr "") ≠ "127.0.0.1" := by
  exact ⟨rfl, by decide⟩

/-- C3 as amended: precedence is config over environment over default,
but with JS truthiness, not mere presence: the config's host/port win
only when present AND truthy (non-empty string, nonzero number), the
environment variable wins only when set and non-empty, and the values are
normalized (port through numeric coercion, debug through a
case-insensitive comparison with "true"); debug follows the config
whenever present and non-null. -/
theorem claim_C3_amended :
    (∀ (cfg : Cfg) (env : Env) (v : JSVal), cfg.host = some v → truthy v = true →
      (buildChildEnv cfg env).SERVICE_REGISTRY_HOST = jsToString v)
    ∧ (∀ (cfg : Cfg) (env : Env) (s : String), cfgFalsy cfg.host = true →
      env.SERVICE_REGISTRY_HOST = some s → s ≠ "" →
      (buildChildEnv cfg env).SERVICE_REGISTRY_HOST = s)
    ∧ (∀ (cfg : Cfg) (env : Env), cfgFalsy cfg.host = true →
      envTruthy env.SERVICE_REGISTRY_HOST = none →
      (buildChildEnv cfg env).SERVICE_REGISTRY_HOST = "127.0.0.1")
    ∧ (∀ (cfg : Cfg) (env : Env) (v : JSVal), cfg.port = some v → truthy v = true →
      (buildChildEnv cfg env).SERVICE_REGISTRY_PORT = numToString (toNumber v))
    ∧ (∀ (cfg : Cfg) (env : Env) (s : String), cfgFalsy cfg.port = true →
      env.SERVICE_REGISTRY_PORT = some s → s ≠ "" →
      (buildChildEnv cfg env).SERVICE_REGISTRY_PORT = numToString (strToNumber s))
    ∧ (∀ (cfg : Cfg) (env : Env), cfgFalsy cfg.port = true →
      envTruthy env.SERVICE_REGISTRY_PORT = none →
      (buildChildEnv cfg env).SERVICE_REGISTRY_PORT = "7001")
    ∧ (∀ (cfg : Cfg) (env : Env) (v : JSVal), cfg.debug = some v → v ≠ .vnull →
      (buildChildEnv cfg env).SERVICE_REGISTRY_DEBUG
        = (if truthy v then "true" else "false"))
    ∧ (∀ (cfg : Cfg) (env : Env), nullishJS cfg.debug = none →
      (buildChildEnv cfg env).SERVICE_REGISTRY_DEBUG
        = (if lowerStr (env.SERVICE_REGISTRY_DEBUG.getD "") == "true"
           then "true" else "false")) := by
  refine ⟨?_, ?_, ?_, ?_, ?_, ?_, ?_, ?_⟩
  · intro cfg env v hv ht
    simp [buildChildEnv, hostVal, hv, orJS_of_truthy ht]
  · intro cfg env s hf hs hne
    have hh : hostVal cfg env = .vstr s := by
      rw [hostVal, orJS_of_falsy hf, hs]
      simp [orJS, truthy, hne]
    simp [buildChildEnv, hh, jsToString]
  · intro cfg env hf he
    have hh : hostVal cfg env = .vstr "127.0.0.1" := by
      rw [hostVal, orJS_of_falsy hf]
      cases henv : env.SERVICE_REGISTRY_HOST with
      | none => simp [orJS]
      | some s =>
        rw [henv] at he
        simp only [envTruthy] at he
        split at he
        · next hs =>
          subst hs
          simp [orJS, truthy]
        · exact absurd he (by simp)
    simp [buildChildEnv, hh, jsToString]
  · intro cfg env v hv ht
    simp [buildChildEnv, portVal, hv, orJS_of_truthy ht]
  · intro cfg env s hf hs hne
    have hp : portVal cfg env = toNumber (.vstr s) := by
      rw [portVal, orJS_of_falsy hf, hs]
      simp [orJS, truthy, hne]
    simp only [buildChildEnv, hp, toNumber]
  · intro cfg env hf he
    have hp : portVal cfg env = .int 7001 := by
      rw [portVal, orJS_of_falsy hf]
      cases henv : env.SERVICE_REGISTRY_PORT with
      | none => simp [orJS, toNumber]
      | some s =>
        rw [henv] at he
        simp only [envTruthy] at he
        split at he
        · next hs =>
          subst hs
          simp [orJS, truthy, toNumber]
        · exact absurd he (by simp)
    simp only [buildChildEnv, hp]
    decide
  · intro cfg env v hv hne
    simp [buildChildEnv, debugVal, hv, nullishJS_of_ne_null hne]
  · intro cfg env hn
    simp [buildChildEnv, debugVal, hn]

/-- Witness for C3's amended theorem at concrete inputs. -/
theorem claim_C3_witness :
    (buildChildEnv ⟨some (.vstr "myhost"), none, none, none, none⟩
        ⟨none, none, some "ignored", none, none⟩).SERVICE_REGISTRY_HOST
      = "myhost" :=
  claim_C3_amended.1 ⟨some (.vstr "myhost"), none, none, none, none⟩
    ⟨none, none, some "ignored", none, none⟩ (.vstr "myhost") rfl rfl

/-! ### Claim C4 -/

/-- Concrete parse oracle for C4: the string "portcfg" parses to a config
whose port is the non-numeric string "abc". -/
def parseC4 : String → Option Cfg := fun s =>
  if s = "portcfg" then some ⟨none, some (.vstr "abc"), none, none, none⟩
  else none

/-- Concrete filesystem for C4: only `/usr/bin/python3` is valid. -/
def fsC4 : FS := fun p =>
  if p = "/usr/bin/python3" then ⟨true, true, true⟩ else ⟨false, false, false⟩

/-- C4 counterexample: with `--config` carrying a non-numeric port, the
resolved port coerces to NaN, yet the launcher does NOT treat this as a
fatal configuration error — it proceeds to spawn the child, passing the
string "NaN" as the port.  There is no port-validity check anywhere in
the code. -/
theorem claim_C4_counterexample :
    toNumber (.vstr "abc") = .nan
    ∧ launch ["--config", "portcfg"] parseC4 ⟨none, none, none, none, none⟩
        fsC4
      = .spawned "/usr/bin/python3" ⟨"127.0.0.1", "NaN", "false"⟩ childArgs := by
  exact ⟨by decide, by decide⟩

/-- C4 as amended: the port value is coerced to a number; a non-numeric
value yields NaN, which is not an error — the child environment's port is
then the string "NaN", and the launcher spawns the child whenever config
parsing and interpreter resolution succeed, regardless of the port's
numericity. -/
theorem claim_C4_amended :
    (∀ (cfg : Cfg) (env : Env), portVal cfg env = .nan →
      (buildChildEnv cfg env).SERVICE_REGISTRY_PORT = "NaN")
    ∧ (∀ (argv : List String) (parse : String → Option Cfg) (env : Env)
        (fs : FS) (cfg : Cfg) (py : String),
      parseConfigArg argv parse = .ok cfg → pyBinUsed env fs = some py →
      launch argv parse env fs = .spawned py (buildChildEnv cfg env) childArgs) := by
  constructor
  · intro cfg env h
    simp [buildChildEnv, h, numToString]
  · intro argv parse env fs cfg py hcfg hpy
    simp [launch, hcfg, hpy]

/-- Witness for C4's amended theorem at concrete inputs. -/
theorem claim_C4_witness :
    (buildChildEnv ⟨none, some (.vstr "zz"), none, none, none⟩
        ⟨none, none, none, none, none⟩).SERVICE_REGISTRY_PORT = "NaN" :=
  claim_C4_amended.1 ⟨none, some (.vstr "zz"), none, none, none⟩
    ⟨none, none, none, none, none⟩ rfl

/-! ### Claim C5 -/

/-- C5: whenever the first `--config` occurrence is followed by a
non-empty value that fails to parse as JSON, the launcher reports the
parse failure and exits with status 1, and no child is spawned (the
outcome is `fatal`, which excludes `spawned` by constructor
disjointness). -/
theorem claim_C5_holds :
    ∀ (argv : List String) (parse : String → Option Cfg) (env : Env) (fs : FS),
    argv.indexOf "--config" < argv.length →
    argv.getD (argv.indexOf "--config" + 1) "" ≠ "" →
    parse (argv.getD (argv.indexOf "--config" + 1) "") = none →
    launch argv parse env fs = .fatal 1 invalidJsonMsg := by
  intro argv parse env fs hi hv hp
  have hcfg : parseConfigArg argv parse = .error invalidJsonMsg := by
    unfold parseConfigArg
    rw [if_pos hi, if_pos hv, hp]
  simp [launch, hcfg]

/-- Witness for C5 at concrete inputs. -/
theorem claim_C5_witness :
    launch ["--config", "notjson"] (fun _ => none)
      ⟨none, none, none, none, none⟩ (fun _ => ⟨false, false, false⟩)
      = .fatal 1 invalidJsonMsg :=
  claim_C5_holds ["--config", "notjson"] (fun _ => none)
    ⟨none, none, none, none, none⟩ (fun _ => ⟨false, false, false⟩)
    (by decide) (by decide) rfl

/-! ### Claim C6 -/

/-- Concrete filesystem for C6: nothing exists anywhere. -/
def fsC6 : FS := fun _ => ⟨false, false, false⟩

/-- Concrete environment for C6: the override names a path that is not a
valid binary; no other candidate is valid either. -/
def envC6 : Env := ⟨some "/ghost/py", none, none, none, none⟩

/-- C6 counterexample: with the override set to an invalid path and no
valid candidate anywhere (the filesystem is empty), the launcher does NOT
exit with 127 — it proceeds to spawn the child with the invalid override
path.  The final guard only fires when the override is unset. -/
theorem claim_C6_counterexample :
    isExecSpec fsC6 "/ghost/py" = false
    ∧ (tries envC6).all (fun c => !isExecSpec fsC6 c) = true
    ∧ launch [] (fun _ => none) envC6 fsC6
      = .spawned "/ghost/py" ⟨"127.0.0.1", "7001", "false"⟩ childArgs := by
  exact ⟨by decide, by decide, by decide⟩

/-- C6 as amended: provided the override variable is unset or empty, if
no fallback candidate exists as a regular file then the launcher exits
with status 127 and the remediation text naming the two concrete fixes
(install the runtime, or set an explicit override), and no child is
spawned; when the override is set and non-empty the guard never fires,
whether or not the override is valid. -/
theorem claim_C6_amended :
    ∀ (argv : List String) (parse : String → Option Cfg) (env : Env)
      (fs : FS) (cfg : Cfg),
    parseConfigArg argv parse = .ok cfg →
    envTruthy env.PYTHON_BIN = none →
    (∀ c ∈ tries env, isExecS fs c = false) →
    launch argv parse env fs = .fatal 127 pythonNotFoundMsg := by
  intro argv parse env fs cfg hcfg hov hall
  have hres : pyBinUsed env fs = none := by
    simp only [pyBinUsed, hov]
    exact List.find?_eq_none.mpr fun x hx => by simp [hall x hx]
  simp [launch, hcfg, hres]

/-- Witness for C6's amended theorem at concrete inputs. -/
theorem claim_C6_witness :
    launch [] (fun _ => none) ⟨none, none, none, none, none⟩ fsC6
      = .fatal 127 pythonNotFoundMsg :=
  claim_C6_amended [] (fun _ => none) ⟨none, none, none, none, none⟩ fsC6
    emptyCfg rfl rfl (by decide)

/-! ### Claim C7 -/

/-- C7: when the child exits with a status code the launcher exits with
the identical code, and when the child was terminated by a signal (no
status code) the launcher exits with status 0 — `process.exit(code ?? 0)`. -/
theorem claim_C7_holds :
    (∀ n : Int, handleEvent (.exited (some n)) = ⟨none, some n, []⟩)
    ∧ handleEvent (.exited none) = ⟨none, some 0, []⟩ :=
  ⟨fun _ => rfl, rfl⟩

/-! ### Claim C8 -/

/-- C8: receipt of SIGINT or SIGTERM while the child runs forwards the
identical signal to the child and nothing else — no diagnostic, no exit —
and the only event that makes the launcher exit is the child's own
termination. -/
theorem claim_C8_holds :
    (∀ s : Sig, handleEvent (.signal s) = ⟨some s, none, []⟩)
    ∧ (∀ e : ChildEvent, (handleEvent e).exitWith.isSome = true →
        ∃ c, e = .exited c) := by
  constructor
  · intro s; rfl
  · intro e he
    cases e with
    | exited c => exact ⟨c, rfl⟩
    | signal s => simp [handleEvent] at he

/-- Witness for C8 at a concrete event. -/
theorem claim_C8_witness :
    ∃ c, ChildEvent.exited (some 3) = ChildEvent.exited c :=
  claim_C8_holds.2 (.exited (some 3)) rfl

/-! ### Claim C9 -/

/-- C9: the PATH-search fallback is structurally unreachable.  The dead
`resolvePython` function's result never depends on the shell's
command-lookup facility (its `which` helper's result is discarded), and
both it and the resolution actually used select only from the override
variable and the six fixed/virtualenv candidates — no shell lookup is
ever performed. -/
theorem claim_C9_holds :
    (∀ (env : Env) (fs : FS) (sh₁ sh₂ : String → Option String),
      resolvePython env fs sh₁ = resolvePython env fs sh₂)
    ∧ (∀ (env : Env) (fs : FS) (sh : String → Option String) (p : String),
      resolvePython env fs sh = some p →
      p ∈ (envTruthy env.PYTHON_BIN).toList ++ tries env)
    ∧ (∀ (env : Env) (fs : FS) (p : String),
      pyBinUsed env fs = some p →
      p ∈ (envTruthy env.PYTHON_BIN).toList ++ tries env) := by
  refine ⟨fun _ _ _ _ => rfl, ?_, ?_⟩
  · intro env fs sh p h
    unfold resolvePython at h
    by_cases hov : isExecOpt fs env.PYTHON_BIN
    · rw [if_pos hov] at h
      cases hpb : env.PYTHON_BIN with
      | none => rw [hpb] at h; cases h
      | some o =>
        rw [hpb] at h
        have ho : o = p := Option.some.inj h
        rw [hpb] at hov
        simp only [isExecOpt, isExecS, Bool.and_eq_true, decide_eq_true_eq] at hov
        have hne : o ≠ "" := hov.1.1
        subst ho
        simp [envTruthy, hpb, hne]
    · rw [if_neg hov] at h
      cases hvenv : envTruthy env.VIRTUAL_ENV with
      | some v =>
        rw [hvenv] at h
        dsimp only at h
        by_cases h1 : isExecS fs (v ++ "/bin/python")
        · rw [if_pos h1] at h
          have := Option.some.inj h
          subst this
          simp [tries, hvenv]
        · rw [if_neg h1] at h
          by_cases h2 : isExecS fs (v ++ "/bin/python3")
          · rw [if_pos h2] at h
            have := Option.some.inj h
            subst this
            simp [tries, hvenv]
          · rw [if_neg h2] at h
            have hm := find?_mem_of_eq_some h
            simp [tries, hvenv]
            tauto
      | none =>
        rw [hvenv] at h
        dsimp only at h
        have hm := find?_mem_of_eq_some h
        simp [tries, hvenv]
        tauto
  · intro env fs p h
    unfold pyBinUsed at h
    cases hov : envTruthy env.PYTHON_BIN with
    | some o =>
      rw [hov] at h
      have := Option.some.inj h
      subst this
      simp [hov]
    | none =>
      rw [hov] at h
      have hm := find?_mem_of_eq_some h
      simp [hov]
      exact hm

/-- Witness for C9 at concrete inputs. -/
theorem claim_C9_witness :
    "/usr/bin/python3" ∈
      (envTruthy (Env.mk none none none none none).PYTHON_BIN).toList
        ++ tries (Env.mk none none none none none) :=
  claim_C9_holds.2.2 (Env.mk none none none none none)
    (fun p => if p = "/usr/bin/python3" then ⟨true, true, true⟩
              else ⟨false, false, false⟩)
    "/usr/bin/python3" (by decide)

/-! ### Claim C10 -/

/-- C10: when `--config` is the last argument (no value follows) or is
followed by the empty string, configuration parsing returns the empty
config — not an error — and the launcher behaves exactly as if the flag
were absent (same outcome as with an empty argument list). -/
theorem claim_C10_holds :
    ∀ (argv : List String) (parse : String → Option Cfg) (env : Env) (fs : FS),
    argv.getD (argv.indexOf "--config" + 1) "" = "" →
    parseConfigArg argv parse = .ok emptyCfg
    ∧ launch argv parse env fs = launch [] parse env fs := by
  intro argv parse env fs h
  have hp : parseConfigArg argv parse = .ok emptyCfg := by
    unfold parseConfigArg
    rw [List.getD_eq_getElem?_getD] at h
    by_cases hi : argv.indexOf "--config" < argv.length
    · simp [hi, h]
    · simp [hi]
  have hp0 : parseConfigArg [] parse = .ok emptyCfg := rfl
  exact ⟨hp, by simp [launch, hp, hp0]⟩

/-- Witness for C10 at concrete inputs: `--config` as the last argument. -/
theorem claim_C10_witness :
    parseConfigArg ["--config"] (fun _ => none) = .ok emptyCfg :=
  (claim_C10_holds ["--config"] (fun _ => none)
    ⟨none, none, none, none, none⟩ (fun _ => ⟨false, false, false⟩)
    (by decide)).1

end Runner
